import Mathlib

/-!
Verification of the gitignore-style ignore-pattern engine of `scan_file.py`.

The Python functions `load_gitignore_patterns`, `should_ignore` and
`fnmatch_path` are embedded as pure Lean functions over strings.  Facts the
code obtains from the operating system are passed in as explicit arguments:
`os.path.isdir path` becomes the boolean `isDir`, the lines yielded while
reading the configuration file (and whether the read failed) become a
`FileRead` record, and the current working directory used by
`os.path.abspath` becomes the argument `cwd`.  POSIX path semantics are
assumed throughout (`os.sep = "/"`, `os.path` is `posixpath`), and the
lexical path helpers of CPython (`posixpath.relpath`, `posixpath.normpath`,
`posixpath.join`, `posixpath.basename`, `pathlib.PurePosixPath.parts`) are
reproduced as Lean functions on strings.
-/

/-- Python single-character `str.replace`: replace every occurrence of the
character `a` by `b`.  For one-character arguments Python's `str.replace`
is exactly a character-wise map. -/
def pyReplace (s : String) (a b : Char) : String :=
  ⟨s.data.map (fun c => if c = a then b else c)⟩

/-- Python `s.startswith(p)`. -/
def pyStartsWith (s p : String) : Bool :=
  decide (p.data <+: s.data)

/-- Python `s.endswith(p)`. -/
def pyEndsWith (s p : String) : Bool :=
  decide (p.data <:+ s.data)

/-- Python `p in s`: substring containment. -/
def pyIn (p s : String) : Bool :=
  decide (p.data <:+: s.data)

/-- Python `s[n:]`. -/
def pyDrop (s : String) (n : Nat) : String :=
  ⟨s.data.drop n⟩

/-- Python `s.rstrip(c)` for a single character `c`: drop every trailing
occurrence of `c`. -/
def pyRstrip (s : String) (c : Char) : String :=
  ⟨(s.data.reverse.dropWhile (fun x => x = c)).reverse⟩

/-- The ASCII whitespace characters recognised by Python `str.strip()`. -/
def pySpace (c : Char) : Bool :=
  c == ' ' || c == '\t' || c == '\n' || c == '\r' || c == '\x0b' || c == '\x0c'

/-- Python `str.strip()` restricted to ASCII whitespace. -/
def pyStrip (s : String) : String :=
  ⟨((s.data.dropWhile pySpace).reverse.dropWhile pySpace).reverse⟩

/-- Split a character list at every occurrence of `sep`, keeping empty
pieces (the semantics of Python `str.split(sep)` for a one-character
separator). -/
def splitChar (sep : Char) : List Char → List (List Char)
  | [] => [[]]
  | c :: cs =>
    let r := splitChar sep cs
    if c = sep then [] :: r
    else
      match r with
      | h :: t => (c :: h) :: t
      | [] => [[c]]

/-- The `/`-separated pieces of a path string (Python `s.split('/')`). -/
def slashPieces (s : String) : List String :=
  (splitChar '/' s.data).map (fun l => ⟨l⟩)

/-- `posixpath.basename`: everything after the last `/`. -/
def basename (p : String) : String :=
  (slashPieces p).getLastD ""

/-- `pathlib.PurePosixPath(p).parts`: the root marker (when the path is
absolute; `//` exactly for two leading slashes) followed by the non-empty,
non-`"."` components of the path. -/
def pathParts (p : String) : List String :=
  let comps := (slashPieces p).filter (fun c => !(c == "") && !(c == "."))
  if pyStartsWith p "//" && !(pyStartsWith p "///") then "//" :: comps
  else if pyStartsWith p "/" then "/" :: comps
  else comps

/-- The component list of `posixpath.normpath`: empty and `"."` components
are dropped; a `".."` pops a preceding real component, is kept at the start
of a relative path, and is dropped at the root of an absolute one. -/
def normComps (isAbs : Bool) (comps : List String) : List String :=
  comps.foldl
    (fun acc c =>
      if c = "" ∨ c = "." then acc
      else if c = ".." then
        if acc = [] then (if isAbs then acc else acc ++ [".."])
        else if acc.getLast? = some ".." then acc ++ [".."]
        else acc.dropLast
      else acc ++ [c])
    []

/-- `posixpath.join` of two paths. -/
def posixJoin2 (a b : String) : String :=
  if pyStartsWith b "/" then b
  else if a = "" ∨ pyEndsWith a "/" then a ++ b
  else a ++ "/" ++ b

/-- The component list of `posixpath.abspath p` when the current working
directory is `cwd`: relative paths are joined onto `cwd`, then the result
is normalised. -/
def absComps (cwd p : String) : List String :=
  let full := posixJoin2 cwd p
  normComps (pyStartsWith full "/") (slashPieces full)

/-- Length of the elementwise common prefix of two component lists
(`genericpath.commonprefix` applied to two lists). -/
def commonPrefixLen : List String → List String → Nat
  | a :: as, b :: bs => if a = b then commonPrefixLen as bs + 1 else 0
  | _, _ => 0

/-- The string produced by `posixpath.relpath path start` (under working
directory `cwd`) when `path` is non-empty. -/
def relpathStr (cwd path start : String) : String :=
  let pl := absComps cwd path
  let sl := absComps cwd start
  let i := commonPrefixLen sl pl
  let rel := List.replicate (sl.length - i) ".." ++ pl.drop i
  if rel = [] then "." else String.intercalate "/" rel

/-- `posixpath.relpath path start` under working directory `cwd`;
`Except.error ()` models the `ValueError` that CPython raises when `path`
is the empty string (the only exception this purely lexical computation
can raise on POSIX). -/
def relpath (cwd path start : String) : Except Unit String :=
  if path = "" then .error () else .ok (relpathStr cwd path start)

/-- `fnmatch_path` from `scan_file.py`: backslashes are normalised to `/`
in both arguments, then the match is decided by the pattern's shape. -/
def fnmatch_path (path pattern : String) : Bool :=
  let path := pyReplace path '\\' '/'
  let pattern := pyReplace pattern '\\' '/'
  if pyStartsWith pattern "*/" then
    let pattern := pyDrop pattern 2
    pyEndsWith path pattern || pyIn pattern path
  else if pyStartsWith pattern "**/" then
    let pattern := pyDrop pattern 3
    pyIn pattern path
  else
    path == pattern || pyEndsWith path ("/" ++ pattern) || pyIn pattern path

/-- `should_ignore` from `scan_file.py`.  The body of the Python `try`
block is reproduced in order: compute the relative path (a failure there is
caught by the `except` and yields `False`), always ignore `.git` path
components, never ignore the root itself, then test each pattern in turn —
directory-only patterns (trailing `/`) match directories whose relative
path equals or extends the stripped pattern, every other pattern goes
through `fnmatch_path` against the relative path and the basename. -/
def should_ignore (cwd path : String) (patterns : List String)
    (root_dir : String) (isDir : Bool) : Bool :=
  match relpath cwd path root_dir with
  | .error _ => false
  | .ok rel_path =>
    if (pathParts path).contains ".git" then true
    else if rel_path == "." then false
    else
      patterns.any (fun pattern =>
        if pattern == "" then false
        else if pyEndsWith pattern "/" then
          let pattern := pyRstrip pattern '/'
          isDir && (rel_path == pattern || pyStartsWith rel_path (pattern ++ "/"))
        else
          fnmatch_path rel_path pattern || fnmatch_path (basename path) pattern)

/-- The observable outcome of reading `rootDir/.gitignore`: whether the
file exists, the lines the file iterator yielded before any failure, and
whether an exception was raised (after those lines were consumed). -/
structure FileRead where
  present : Bool
  linesRead : List String
  failed : Bool

/-- `load_gitignore_patterns` from `scan_file.py`.  Returns the pattern
list together with a boolean recording whether the warning was printed
(the `except` branch runs exactly when the file exists and reading it
raised).  Lines appended before a mid-read failure are kept, since the
`try` block only guards the remainder of the loop. -/
def load_gitignore_patterns (f : FileRead) : List String × Bool :=
  if f.present then
    (f.linesRead.foldl
      (fun patterns line =>
        let line := pyStrip line
        if line ≠ "" ∧ ¬ (pyStartsWith line "#" = true) then patterns ++ [line]
        else patterns)
      [],
     f.failed)
  else ([], false)

lemma commonPrefixLen_self (l : List String) : commonPrefixLen l l = l.length := by
  induction l with
  | nil => rfl
  | cons a as ih => simp [commonPrefixLen, ih]

lemma relpathStr_self (cwd root : String) : relpathStr cwd root root = "." := by
  unfold relpathStr
  simp [commonPrefixLen_self, List.drop_length]

/-- C1: for every path one of whose `PurePosixPath` components is `.git`,
`should_ignore` returns `true`, whatever pattern set (including the empty
one), root directory, working directory and directory flag are supplied:
the check is hard-coded before the pattern loop. -/
theorem c1_git_component_always_ignored
    (cwd path root_dir : String) (patterns : List String) (isDir : Bool)
    (h : ".git" ∈ pathParts path) :
    should_ignore cwd path patterns root_dir isDir = true := by
  have hne : path ≠ "" := by
    intro he
    rw [he] at h
    exact absurd h (by decide)
  simp [should_ignore, relpath, if_neg hne, List.contains, h]

/-- Witness for C1 at the concrete path `/r/.git/x` with an empty pattern
set. -/
theorem c1_witness : should_ignore "/" "/r/.git/x" [] "/r" false = true :=
  c1_git_component_always_ignored "/" "/r/.git/x" "/r" [] false (by decide)

/-- C2 counterexample: the hard-coded `.git` component check runs before
the `rel_path == "."` root check, so a root directory whose own path
contains a `.git` component is ignored even when queried against itself
with an empty pattern set — the claim "the root is never ignored whatever
the root's own path looks like" is false. -/
theorem c2_counterexample :
    should_ignore "/" "/a/.git/b" [] "/a/.git/b" true = true := by decide

/-- C2 (amended): for every root directory whose path has no `.git`
component, querying the root against itself yields `false` for every
pattern set: the relative path is `"."` and the root check fires; for the
empty root the relative-path computation fails and the fail-open branch
also yields `false`. -/
theorem c2_root_not_ignored_unless_git
    (cwd root_dir : String) (patterns : List String) (isDir : Bool)
    (hgit : ".git" ∉ pathParts root_dir) :
    should_ignore cwd root_dir patterns root_dir isDir = false := by
  by_cases hne : root_dir = ""
  · subst hne
    rfl
  · simp [should_ignore, relpath, if_neg hne, relpathStr_self, List.contains, hgit]

/-- Witness for the amended C2 at the concrete root `/a/b` with a
non-trivial pattern set. -/
theorem c2_amended_witness :
    should_ignore "/" "/a/b" ["x/", "b"] "/a/b" true = false :=
  c2_root_not_ignored_unless_git "/" "/a/b" ["x/", "b"] true (by decide)

/-- C7: `should_ignore` is fail-open — whenever the relative-path
computation fails (the only exception source inside the `try` block), the
exception is caught and the result is `false`, for every pattern set and
directory flag.  The embedding is a total function, so no other outcome
than a boolean is possible. -/
theorem c7_fail_open (cwd path root_dir : String) (patterns : List String)
    (isDir : Bool) (herr : relpath cwd path root_dir = .error ()) :
    should_ignore cwd path patterns root_dir isDir = false := by
  unfold should_ignore
  rw [herr]

/-- Witness for C7: the empty path makes `os.path.relpath` raise, and the
matcher answers `false`. -/
theorem c7_witness : should_ignore "/" "" ["a"] "/r" true = false :=
  c7_fail_open "/" "" "/r" ["a"] true rfl

/-- C9: `should_ignore` is deterministic — two evaluations on equal inputs
(path, pattern set, root, working directory and directory flag) give equal
results; the embedding reads no state beyond its arguments. -/
theorem c9_deterministic (cwd path : String) (patterns : List String)
    (root_dir : String) (isDir : Bool) (cwd₂ path₂ : String)
    (patterns₂ : List String) (root_dir₂ : String) (isDir₂ : Bool)
    (h1 : cwd = cwd₂) (h2 : path = path₂) (h3 : patterns = patterns₂)
    (h4 : root_dir = root_dir₂) (h5 : isDir = isDir₂) :
    should_ignore cwd path patterns root_dir isDir
      = should_ignore cwd₂ path₂ patterns₂ root_dir₂ isDir₂ := by
  rw [h1, h2, h3, h4, h5]

/-- Witness for C9 at one concrete input evaluated twice. -/
theorem c9_witness :
    should_ignore "/" "/r/a" ["p"] "/r" true
      = should_ignore "/" "/r/a" ["p"] "/r" true :=
  c9_deterministic "/" "/r/a" ["p"] "/r" true "/" "/r/a" ["p"] "/r" true
    rfl rfl rfl rfl rfl

/-- The three-case reference definition of the glob matcher from the
specification (§4.3), written from the spec's words: normalise backslashes
in both strings, then decide by the pattern's shape — `*/` prefix: suffix
or substring of the stripped pattern; `**/` prefix: substring of the
3-character-stripped pattern; otherwise equality, `/`-suffix or
substring. -/
def fnmatchRef (candidate pattern : String) : Bool :=
  let c := pyReplace candidate '\\' '/'
  let p := pyReplace pattern '\\' '/'
  if pyStartsWith p "*/" then
    pyEndsWith c (pyDrop p 2) || pyIn (pyDrop p 2) c
  else if pyStartsWith p "**/" then
    pyIn (pyDrop p 3) c
  else
    c == p || pyEndsWith c ("/" ++ p) || pyIn p c

/-- C3: `fnmatch_path` coincides with the specification's three-case
reference definition on all inputs, and in particular pattern `log` matches
`src/catalog.txt`, `*/cache` matches `a/b/cache`, and `**/node_modules`
matches `a/b/node_modules/x.js`. -/
theorem c3_fnmatch_matches_reference :
    (∀ candidate pattern,
      fnmatch_path candidate pattern = fnmatchRef candidate pattern)
    ∧ fnmatch_path "src/catalog.txt" "log" = true
    ∧ fnmatch_path "a/b/cache" "*/cache" = true
    ∧ fnmatch_path "a/b/node_modules/x.js" "**/node_modules" = true :=
  ⟨fun _ _ => rfl, by decide, by decide, by decide⟩

/-- C4: a pattern with a trailing separator matches exactly the directories
whose relative path equals the stripped pattern or extends it by a
separator; with `isDir = false` the right-hand side is `false`, so this
branch never ignores a non-directory (a file literally named `build` is
not matched by `build/`). -/
theorem c4_directory_only_pattern
    (cwd path root_dir rel pattern : String) (isDir : Bool)
    (hrel : relpath cwd path root_dir = .ok rel)
    (hgit : ".git" ∉ pathParts path)
    (hroot : rel ≠ ".")
    (hdir : pyEndsWith pattern "/" = true) :
    should_ignore cwd path [pattern] root_dir isDir
      = (isDir && (rel == pyRstrip pattern '/'
          || pyStartsWith rel (pyRstrip pattern '/' ++ "/"))) := by
  have hpat : pattern ≠ "" := by
    intro he
    rw [he] at hdir
    exact absurd hdir (by decide)
  unfold should_ignore
  rw [hrel]
  simp [List.contains, hgit, hroot, hpat, hdir]

/-- Witness for C4: the directory `/r/build` is ignored by pattern
`build/`, the file `/r/build` is not. -/
theorem c4_witness :
    should_ignore "/" "/r/build" ["build/"] "/r" true = true
    ∧ should_ignore "/" "/r/build" ["build/"] "/r" false = false := by
  constructor
  · rw [c4_directory_only_pattern "/" "/r/build" "/r" "build" "build/" true
      rfl (by decide) (by decide) (by decide)]
    decide
  · rw [c4_directory_only_pattern "/" "/r/build" "/r" "build" "build/" false
      rfl (by decide) (by decide) (by decide)]
    decide

/-- What the specification's loader keeps of one configuration line: strip
whitespace, drop the line when it is blank or its first non-whitespace
character is `#`, keep the stripped line otherwise. -/
def keepLine (line : String) : Option String :=
  let l := pyStrip line
  if l = "" then none
  else if pyStartsWith l "#" then none
  else some l

lemma load_foldl_eq (lines acc : List String) :
    lines.foldl
      (fun patterns line =>
        let line := pyStrip line
        if line ≠ "" ∧ ¬ (pyStartsWith line "#" = true) then patterns ++ [line]
        else patterns)
      acc
    = acc ++ lines.filterMap keepLine := by
  induction lines generalizing acc with
  | nil => simp
  | cons l ls ih =>
    simp only [List.foldl_cons, List.filterMap_cons]
    rw [ih]
    by_cases h1 : pyStrip l = ""
    · simp [keepLine, h1]
    · by_cases h2 : pyStartsWith (pyStrip l) "#" = true
      · simp [keepLine, h1, h2]
      · simp [keepLine, h1, h2, List.append_assoc]

/-- C5: the loader keeps exactly the stripped, non-blank, non-comment
lines, in input order; concretely the lines
`["# comment", "", "dist/", "*.tmp"]` yield the two patterns `dist/` and
`*.tmp` in that order. -/
theorem c5_load_parses_lines :
    (load_gitignore_patterns
        ⟨true, ["# comment", "", "dist/", "*.tmp"], false⟩).1
      = ["dist/", "*.tmp"]
    ∧ ∀ lines failed,
        (load_gitignore_patterns ⟨true, lines, failed⟩).1
          = lines.filterMap keepLine := by
  refine ⟨by decide, fun lines failed => ?_⟩
  have h := load_foldl_eq lines []
  simpa [load_gitignore_patterns] using h

/-- C6 counterexample: a read failure occurring after one line was already
consumed does not yield an empty pattern set — the `try` block keeps the
patterns appended before the exception, so the claim "any read failure
returns an empty PatternSet" is false for mid-read failures. -/
theorem c6_counterexample :
    (load_gitignore_patterns ⟨true, ["dist/"], true⟩).1 ≠ [] := by decide

/-- C6 (amended): the loader never raises (it is a total function of the
observed read); a missing file yields an empty pattern set with no
warning; a failure before any line is read yields an empty pattern set;
a mid-read failure yields exactly the patterns parsed from the lines read
before it (parsed the same way as on a clean read); the warning is printed
precisely when the file exists and the read failed. -/
theorem c6_load_failure_behaviour :
    (∀ lines failed,
      load_gitignore_patterns ⟨false, lines, failed⟩ = ([], false))
    ∧ (∀ failed, (load_gitignore_patterns ⟨true, [], failed⟩).1 = [])
    ∧ (∀ lines failed,
        (load_gitignore_patterns ⟨true, lines, failed⟩).1
          = (load_gitignore_patterns ⟨true, lines, false⟩).1)
    ∧ (∀ f : FileRead,
        (load_gitignore_patterns f).2 = (f.present && f.failed)) := by
  refine ⟨fun lines failed => rfl, fun failed => rfl,
    fun lines failed => rfl, fun f => ?_⟩
  rcases f with ⟨p, l, fl⟩
  cases p <;> rfl

lemma perm_any_eq {α : Type} (f : α → Bool) {l₁ l₂ : List α}
    (h : l₁.Perm l₂) : l₁.any f = l₂.any f := by
  induction h with
  | nil => rfl
  | cons a h ih => simp [ih]
  | swap x y l =>
    simp only [List.any_cons]
    cases f x <;> cases f y <;> simp
  | trans h₁ h₂ ih₁ ih₂ => exact ih₁.trans ih₂

/-- C8: permuting the pattern set never changes the verdict — all pattern
matches are independent disjuncts with no negation, so although evaluation
short-circuits at the first match, the outcome is order-independent. -/
theorem c8_perm_invariant (cwd path root_dir : String) (isDir : Bool)
    (ps₁ ps₂ : List String) (h : ps₁.Perm ps₂) :
    should_ignore cwd path ps₁ root_dir isDir
      = should_ignore cwd path ps₂ root_dir isDir := by
  unfold should_ignore
  cases relpath cwd path root_dir with
  | error e => rfl
  | ok rel =>
    simp only [List.contains]
    simp
    rw [perm_any_eq _ h]

/-- Witness for C8 at the two-element pattern sets `["a", "b"]` and
`["b", "a"]`. -/
theorem c8_witness :
    should_ignore "/" "/r/x" ["a", "b"] "/r" false
      = should_ignore "/" "/r/x" ["b", "a"] "/r" false :=
  c8_perm_invariant "/" "/r/x" "/r" false ["a", "b"] ["b", "a"]
    (List.Perm.swap "b" "a" [])

/-- The pattern with its leading `*/` (two characters) or `**/` (three
characters) prefix stripped, or unchanged when it has neither; the branch
order mirrors `fnmatch_path`. -/
def stripStar (p : String) : String :=
  if pyStartsWith p "*/" then pyDrop p 2
  else if pyStartsWith p "**/" then pyDrop p 3
  else p

lemma endsWith_imp_in (s p : String) (h : pyEndsWith s p = true) :
    pyIn p s = true := by
  simp only [pyEndsWith, decide_eq_true_eq] at h
  simp only [pyIn, decide_eq_true_eq]
  exact h.isInfix

lemma or_in_left (s p : String) :
    (pyEndsWith s p || pyIn p s) = pyIn p s := by
  cases h : pyEndsWith s p
  · simp
  · simp [endsWith_imp_in s p h]

lemma eq_imp_in (s p : String) (h : (s == p) = true) : pyIn p s = true := by
  have hsp : s = p := by simpa using h
  subst hsp
  simp [pyIn]

lemma slashEnds_imp_in (s p : String)
    (h : pyEndsWith s ("/" ++ p) = true) : pyIn p s = true := by
  simp only [pyEndsWith, decide_eq_true_eq, String.data_append] at h
  simp only [pyIn, decide_eq_true_eq]
  have hp : p.data <:+ ("/" : String).data ++ p.data :=
    List.suffix_cons '/' p.data
  exact (hp.trans h).isInfix

lemma or3_in (s p : String) :
    (s == p || pyEndsWith s ("/" ++ p) || pyIn p s) = pyIn p s := by
  cases h1 : (s == p)
  · cases h2 : pyEndsWith s ("/" ++ p)
    · simp
    · simp [slashEnds_imp_in s p h2]
  · simp [eq_imp_in s p h1]

lemma fnmatch_eq_strip (c p : String) :
    fnmatch_path c p
      = pyIn (stripStar (pyReplace p '\\' '/')) (pyReplace c '\\' '/') := by
  simp only [fnmatch_path, stripStar]
  cases h1 : pyStartsWith (pyReplace p '\\' '/') "*/" with
  | false =>
    cases h2 : pyStartsWith (pyReplace p '\\' '/') "**/" with
    | false => simp [h1, h2, or3_in]
    | true => simp [h1, h2]
  | true => simp [h1, or_in_left]

lemma pyReplace_append (a b : String) (x y : Char) :
    pyReplace (a ++ b) x y = pyReplace a x y ++ pyReplace b x y := by
  apply String.ext
  simp [pyReplace, String.data_append]

lemma pyReplace_star (q : String) :
    pyReplace ("*/" ++ q) '\\' '/' = "*/" ++ pyReplace q '\\' '/' := by
  rw [pyReplace_append]
  rfl

lemma pyReplace_dstar (q : String) :
    pyReplace ("**/" ++ q) '\\' '/' = "**/" ++ pyReplace q '\\' '/' := by
  rw [pyReplace_append]
  rfl

lemma pyStartsWith_star (q : String) : pyStartsWith ("*/" ++ q) "*/" = true := by
  simp only [pyStartsWith, String.data_append, decide_eq_true_eq]
  exact List.prefix_append _ _

lemma pyStartsWith_dstar (q : String) :
    pyStartsWith ("**/" ++ q) "**/" = true := by
  simp only [pyStartsWith, String.data_append, decide_eq_true_eq]
  exact List.prefix_append _ _

lemma pyStartsWith_dstar_not_star (q : String) :
    pyStartsWith ("**/" ++ q) "*/" = false := by
  simp only [pyStartsWith, String.data_append, decide_eq_false_iff_not]
  simp [List.cons_prefix_cons]

lemma stripStar_star (q : String) : stripStar ("*/" ++ q) = q := by
  unfold stripStar
  rw [if_pos (pyStartsWith_star q)]
  exact String.ext rfl

lemma stripStar_dstar (q : String) : stripStar ("**/" ++ q) = q := by
  unfold stripStar
  rw [if_neg (by simp [pyStartsWith_dstar_not_star]),
    if_pos (pyStartsWith_dstar q)]
  exact String.ext rfl

lemma stripStar_id (q : String) (h1 : pyStartsWith q "*/" = false)
    (h2 : pyStartsWith q "**/" = false) : stripStar q = q := by
  simp [stripStar, h1, h2]

/-- C10: every branch of `fnmatch_path` reduces to plain substring
containment of the star-prefix-stripped, backslash-normalised pattern in
the normalised candidate; consequently `*/p` and `**/p` patterns are
always interchangeable, and both agree with the bare pattern whenever the
normalised bare pattern carries no `*/` or `**/` prefix of its own. -/
theorem c10_fnmatch_is_substring :
    (∀ c p, fnmatch_path c p
        = pyIn (stripStar (pyReplace p '\\' '/')) (pyReplace c '\\' '/'))
    ∧ (∀ c p, fnmatch_path c ("*/" ++ p) = fnmatch_path c ("**/" ++ p))
    ∧ (∀ c p, pyStartsWith (pyReplace p '\\' '/') "*/" = false →
        pyStartsWith (pyReplace p '\\' '/') "**/" = false →
        fnmatch_path c p = fnmatch_path c ("*/" ++ p)
          ∧ fnmatch_path c p = fnmatch_path c ("**/" ++ p)) := by
  refine ⟨fnmatch_eq_strip, fun c p => ?_, fun c p h1 h2 => ⟨?_, ?_⟩⟩
  · rw [fnmatch_eq_strip, fnmatch_eq_strip, pyReplace_star, pyReplace_dstar,
      stripStar_star, stripStar_dstar]
  · rw [fnmatch_eq_strip, fnmatch_eq_strip, pyReplace_star, stripStar_star,
      stripStar_id _ h1 h2]
  · rw [fnmatch_eq_strip, fnmatch_eq_strip, pyReplace_dstar, stripStar_dstar,
      stripStar_id _ h1 h2]

/-- Witness for C10: the bare pattern `a` agrees with `*/a` and `**/a` on
the candidate `x/a`. -/
theorem c10_witness :
    fnmatch_path "x/a" "a" = fnmatch_path "x/a" ("*/" ++ "a")
    ∧ fnmatch_path "x/a" "a" = fnmatch_path "x/a" ("**/" ++ "a") :=
  c10_fnmatch_is_substring.2.2 "x/a" "a" (by decide) (by decide)

example : fnmatch_path "src/catalog.txt" "log" = true := by decide
example : fnmatch_path "a/b/cache" "*/cache" = true := by decide
example : relpath "/" "/r/build" "/r" = .ok "build" := rfl
example : should_ignore "/" "/a/.git/b" [] "/a/.git/b" true = true := by decide
example : should_ignore "/" "/r/build" ["build/"] "/r" true = true := by decide
example : should_ignore "/" "/r/build" ["build/"] "/r" false = false := by decide
example : (load_gitignore_patterns ⟨true, ["# comment", "", "dist/", "*.tmp"], false⟩).1
    = ["dist/", "*.tmp"] := by decide
